import Mathlib

/-!
# Verification of the ATDome CSC protocol/status engine

Shallow embedding of `python/lsst/ts/ATDome/dome_csc.py`:
the `MoveCode` / `Axis` bit fields, the pure status-derivation functions
(`compute_az_state`, `compute_door_state`, `compute_in_position_mask`),
the derived in-position flags of `handle_short_status`, the
command-handler effect traces (`do_moveAzimuth`, `do_stopMotion`, ...),
and the request/response handling of `run_command`.

Floating-point angles and percentages are modelled as rationals; move
codes are natural numbers with Lean's bitwise `&&&`/`|||` standing for
Python's `&`/`|` on non-negative ints.
-/

namespace ATDome

/-! ## MoveCode and Axis bit flags (class MoveCode / class Axis) -/

def AzPositive : Nat := 1
def AzNegative : Nat := 2
def MainDoorClosing : Nat := 4
def MainDoorOpening : Nat := 8
def DropoutDoorClosing : Nat := 16
def DropoutDoorOpening : Nat := 32
def Homing : Nat := 64
def EStop : Nat := 128

/-- `Axis` is an `enum.Flag` with members `Az`, `DropoutDoor`, `MainDoor`;
`enum.auto` assigns the bits 1, 2, 4 in declaration order. -/
def AxisAz : Nat := 1
def AxisDropoutDoor : Nat := 2
def AxisMainDoor : Nat := 4

/-! ## Enum values from `sal_enums` (referenced by dome_csc.py) -/

inductive AzimuthState where
  | NotInMotion
  | MovingCW
  | MovingCCW
  deriving DecidableEq, Repr

inductive AzimuthCommandedState where
  | Unknown
  | GoToPosition
  | Home
  | Stop
  deriving DecidableEq, Repr

inductive ShutterDoorState where
  | Closed
  | Opened
  | PartiallyOpened
  | Opening
  | Closing
  deriving DecidableEq, Repr

inductive ShutterDoorCommandedState where
  | Unknown
  | Opened
  | Closed
  | Stop
  deriving DecidableEq, Repr

/-! ## Pure status-derivation functions -/

/-- `ATDomeCsc.compute_az_state(move_code)`: Python truthiness of
`move_code & MoveCode.AzPositive` is "nonzero". -/
def compute_az_state (move_code : Nat) : AzimuthState :=
  if move_code &&& AzPositive ≠ 0 then AzimuthState.MovingCW
  else if move_code &&& AzNegative ≠ 0 then AzimuthState.MovingCCW
  else AzimuthState.NotInMotion

/-- `ATDomeCsc.compute_door_state(open_pct, is_main, move_code)`.
`none` models the `raise RuntimeError(...)` branch taken when
`door_state` is still `None` after the if/elif chain. -/
def compute_door_state (open_pct : ℚ) (is_main : Bool) (move_code : Nat) :
    Option ShutterDoorState :=
  let closing_code := if is_main then MainDoorClosing else DropoutDoorClosing
  let opening_code := if is_main then MainDoorOpening else DropoutDoorOpening
  let door_mask := closing_code ||| opening_code
  let door_state : Option ShutterDoorState :=
    if move_code &&& door_mask = 0 then
      if open_pct = 0 then some ShutterDoorState.Closed
      else if open_pct = 100 then some ShutterDoorState.Opened
      else some ShutterDoorState.PartiallyOpened
    else if move_code &&& closing_code ≠ 0 then some ShutterDoorState.Closing
    else if move_code &&& opening_code ≠ 0 then some ShutterDoorState.Opening
    else none
  door_state

/-! ## In-position computation -/

/-- Floor of a rational, computed from its normalised numerator and
denominator with flooring integer division. -/
def qfloor (q : ℚ) : ℤ := q.num.fdiv q.den

/-- Modelled from the spec: `angle_diff` comes from `lsst.ts.ATDome.utils`,
a module not present under src/. Per the spec (§3) the azimuth in-position
test uses the "angular difference (shortest-path, wrapped)": the plain
difference wrapped into the half-open interval [-180, 180) degrees. -/
def angle_diff (a b : ℚ) : ℚ :=
  (a - b + 180) - 360 * (qfloor ((a - b + 180) / 360) : ℚ) - 180

/-- `self.az_tolerance = Angle(0.2, u.deg)`: tolerance for "in position". -/
def az_tolerance : ℚ := 1/5

/-- The fields of `self.tel_position.data` that the status logic reads. -/
structure PositionData where
  azimuthPosition : ℚ
  dropoutDoorOpeningPercentage : ℚ
  mainDoorOpeningPercentage : ℚ
  deriving DecidableEq, Repr

/-- The commanded-state event data that the status logic reads:
`evt_azimuthCommandedState.data` (`commandedState` and `azimuth`) and the
`commandedState` fields of the two door commanded-state events. -/
structure CommandedData where
  azCmd : AzimuthCommandedState
  azCmdAzimuth : ℚ
  dropoutCmd : ShutterDoorCommandedState
  mainCmd : ShutterDoorCommandedState
  deriving DecidableEq, Repr

/-- `ATDomeCsc.compute_in_position_mask(move_code)`, reading
`self.evt_*CommandedState.data` and `self.tel_position.data` from `cs`
and `pos`. The source repeats the dropout-door block verbatim
(lines 267-283); the repetition is kept, it is idempotent on the mask. -/
def compute_in_position_mask (cs : CommandedData) (pos : PositionData)
    (move_code : Nat) : Nat :=
  let mask : Nat := 0
  let az_halted := move_code &&& (AzPositive ||| AzNegative) = 0
  let mask :=
    if az_halted ∧ cs.azCmd = AzimuthCommandedState.GoToPosition then
      if |angle_diff pos.azimuthPosition cs.azCmdAzimuth| < az_tolerance then
        mask ||| AxisAz
      else mask
    else mask
  let dropout_halted := move_code &&& (DropoutDoorClosing ||| DropoutDoorOpening) = 0
  let mask :=
    if dropout_halted then
      if cs.dropoutCmd = ShutterDoorCommandedState.Opened then
        if pos.dropoutDoorOpeningPercentage = 100 then mask ||| AxisDropoutDoor else mask
      else if cs.dropoutCmd = ShutterDoorCommandedState.Closed then
        if pos.dropoutDoorOpeningPercentage = 0 then mask ||| AxisDropoutDoor else mask
      else mask
    else mask
  let mask :=
    if dropout_halted then
      if cs.dropoutCmd = ShutterDoorCommandedState.Opened then
        if pos.dropoutDoorOpeningPercentage = 100 then mask ||| AxisDropoutDoor else mask
      else if cs.dropoutCmd = ShutterDoorCommandedState.Closed then
        if pos.dropoutDoorOpeningPercentage = 0 then mask ||| AxisDropoutDoor else mask
      else mask
    else mask
  let main_halted := move_code &&& (MainDoorClosing ||| MainDoorOpening) = 0
  let mask :=
    if main_halted then
      if cs.mainCmd = ShutterDoorCommandedState.Opened then
        if pos.mainDoorOpeningPercentage = 100 then mask ||| AxisMainDoor else mask
      else if cs.mainCmd = ShutterDoorCommandedState.Closed then
        if pos.mainDoorOpeningPercentage = 0 then mask ||| AxisMainDoor else mask
      else mask
    else mask
  mask

/-- `in_position(Axis.Az)` in `handle_short_status`:
`in_position_mask & mask == mask` for the azimuth bit. -/
def azimuthInPosition (cs : CommandedData) (pos : PositionData)
    (move_code : Nat) : Bool :=
  compute_in_position_mask cs pos move_code &&& AxisAz = AxisAz

/-- `in_position(Axis.DropoutDoor | Axis.MainDoor)` in `handle_short_status`. -/
def shutterInPosition (cs : CommandedData) (pos : PositionData)
    (move_code : Nat) : Bool :=
  compute_in_position_mask cs pos move_code &&& (AxisDropoutDoor ||| AxisMainDoor)
    = (AxisDropoutDoor ||| AxisMainDoor)

/-- `azimuth_in_position and shutter_in_position` in `handle_short_status`. -/
def allAxesInPosition (cs : CommandedData) (pos : PositionData)
    (move_code : Nat) : Bool :=
  azimuthInPosition cs pos move_code && shutterInPosition cs pos move_code

/-! ## Command handlers as effect traces

Each `do_*` coroutine is modelled as a function from the state it reads
(enabled flag, the `homing` field of `evt_azimuthState.data`, the derived
door states it checks) to either an error (`salobj.ExpectedError`, the
spec's `RejectedError`; or the `assert_enabled` failure) or the ordered
list of externally visible effects it performs: wire commands written by
`run_command` and `set_put` updates of the commanded-state events. The
trace assumes the round trip through `run_command` acknowledges normally;
the handler returns right after these effects, without waiting for
physical completion. -/

/-- The wire commands of the ASCII protocol. `mv a` denotes the string
produced by `f"\x7ba:0.3f\x7d MV"`, i.e. `a` formatted with three decimals
followed by " MV". -/
inductive WireCommand where
  | mv (azimuth : ℚ)
  | sc
  | so
  | st
  | hm
  | dn
  | up
  | op
  | cl
  deriving DecidableEq, Repr

/-- What a `set_put` writes into `evt_azimuthCommandedState.data.azimuth`:
nothing (the field keeps its old value), NaN (`math.nan`), or a number. -/
inductive AzField where
  | unchanged
  | nanVal
  | val (a : ℚ)
  deriving DecidableEq, Repr

inductive Event where
  | send (cmd : WireCommand)
  | setAzCmd (s : AzimuthCommandedState) (az : AzField)
  | setDropoutCmd (s : ShutterDoorCommandedState)
  | setMainCmd (s : ShutterDoorCommandedState)
  deriving DecidableEq, Repr

inductive CmdError where
  | notEnabled
  | rejected
  deriving DecidableEq, Repr

/-- `ATDomeCsc.do_moveAzimuth`: `assert_enabled`, reject while homing,
reject azimuth outside [0, 360], send `"<azimuth:0.3f> MV"`, then
`set_put` Az commanded state to `GoToPosition` with that azimuth. -/
def do_moveAzimuth (enabled homing : Bool) (azimuth : ℚ) :
    Except CmdError (List Event) :=
  if !enabled then Except.error CmdError.notEnabled
  else if homing then Except.error CmdError.rejected
  else if azimuth < 0 ∨ azimuth > 360 then Except.error CmdError.rejected
  else Except.ok
    [Event.send (WireCommand.mv azimuth),
     Event.setAzCmd AzimuthCommandedState.GoToPosition (AzField.val azimuth)]

/-- `ATDomeCsc.do_closeShutter`: send `"SC"`, then set both door
commanded states to `Closed`. -/
def do_closeShutter (enabled : Bool) : Except CmdError (List Event) :=
  if !enabled then Except.error CmdError.notEnabled
  else Except.ok
    [Event.send WireCommand.sc,
     Event.setDropoutCmd ShutterDoorCommandedState.Closed,
     Event.setMainCmd ShutterDoorCommandedState.Closed]

/-- `ATDomeCsc.do_openShutter`: send `"SO"`, then set both door
commanded states to `Opened`. -/
def do_openShutter (enabled : Bool) : Except CmdError (List Event) :=
  if !enabled then Except.error CmdError.notEnabled
  else Except.ok
    [Event.send WireCommand.so,
     Event.setDropoutCmd ShutterDoorCommandedState.Opened,
     Event.setMainCmd ShutterDoorCommandedState.Opened]

/-- `ATDomeCsc.do_stopMotion`: set all three commanded states to `Stop`
(the azimuth `set_put` does not pass the azimuth field), then send `"ST"`. -/
def do_stopMotion (enabled : Bool) : Except CmdError (List Event) :=
  if !enabled then Except.error CmdError.notEnabled
  else Except.ok
    [Event.setAzCmd AzimuthCommandedState.Stop AzField.unchanged,
     Event.setDropoutCmd ShutterDoorCommandedState.Stop,
     Event.setMainCmd ShutterDoorCommandedState.Stop,
     Event.send WireCommand.st]

/-- `ATDomeCsc.do_homeAzimuth`: reject while homing, set Az commanded
state to `Home` with azimuth `math.nan`, then send `"HM"`. -/
def do_homeAzimuth (enabled homing : Bool) : Except CmdError (List Event) :=
  if !enabled then Except.error CmdError.notEnabled
  else if homing then Except.error CmdError.rejected
  else Except.ok
    [Event.setAzCmd AzimuthCommandedState.Home AzField.nanVal,
     Event.send WireCommand.hm]

/-- `ATDomeCsc.do_moveShutterDropoutDoor`: reject unless the main door's
derived state (`evt_mainDoorState.data.state`) is `Opened`; then set the
dropout commanded state and send `"DN"` (open) or `"UP"` (close). -/
def do_moveShutterDropoutDoor (enabled : Bool)
    (mainDoorState : ShutterDoorState) (openArg : Bool) :
    Except CmdError (List Event) :=
  if !enabled then Except.error CmdError.notEnabled
  else if mainDoorState ≠ ShutterDoorState.Opened then Except.error CmdError.rejected
  else if openArg then Except.ok
    [Event.setDropoutCmd ShutterDoorCommandedState.Opened,
     Event.send WireCommand.dn]
  else Except.ok
    [Event.setDropoutCmd ShutterDoorCommandedState.Closed,
     Event.send WireCommand.up]

/-- `ATDomeCsc.do_moveShutterMainDoor`: opening needs no precondition;
closing rejects unless the dropout door's derived state
(`evt_dropoutDoorState.data.state`) is `Closed` or `Opened`. -/
def do_moveShutterMainDoor (enabled : Bool)
    (dropoutDoorState : ShutterDoorState) (openArg : Bool) :
    Except CmdError (List Event) :=
  if !enabled then Except.error CmdError.notEnabled
  else if openArg then Except.ok
    [Event.setMainCmd ShutterDoorCommandedState.Opened,
     Event.send WireCommand.op]
  else if ¬(dropoutDoorState = ShutterDoorState.Closed ∨
            dropoutDoorState = ShutterDoorState.Opened) then
    Except.error CmdError.rejected
  else Except.ok
    [Event.setMainCmd ShutterDoorCommandedState.Closed,
     Event.send WireCommand.cl]

def isSend : Event → Bool
  | Event.send _ => true
  | _ => false

/-- The trace keeps all commanded-state updates before all wire sends:
once a send occurs, only sends follow. -/
def updatesBeforeSends : List Event → Bool
  | [] => true
  | e :: rest => if isSend e then rest.all isSend else updatesBeforeSends rest

/-- The trace starts with a wire send. -/
def sendFirst : List Event → Bool
  | Event.send _ :: _ => true
  | _ => false

/-! ## run_command: request/response handling

`ATDomeCsc.run_command(cmd)` (while connected) writes `cmd + "\r\n"`,
then reads up to `">"` under the read timeout. The read result is an
input of the model: the raw decoded text on success, or the timeout /
incomplete-read exceptions. -/

/-- Result of `await asyncio.wait_for(self.reader.readuntil(b">"), ...)`.
`ok data` carries the decoded text already split on `"\n"` (Python's
`data.split("\n")`, so the last element is the text after the final
newline, normally the `">"` terminator line); `timeout` is
`asyncio.TimeoutError`, `eof` is `asyncio.streams.IncompleteReadError`. -/
inductive ReadResult where
  | ok (data : List String)
  | timeout
  | eof
  deriving DecidableEq, Repr

/-- Connection-relevant outcome state after `run_command`: whether the
reader/writer pair is still up, and any fault code reported via
`self.fault`. -/
structure ConnState where
  connected : Bool
  faultCode : Option Nat
  deriving DecidableEq, Repr

inductive RunOutcome where
  /-- `RuntimeError("Not connected and not trying to connect")`. -/
  | notConnectedErr
  /-- `self.log.warning(...)`: line count mismatched; no update published. -/
  | lineCountMismatch
  /-- `handle_short_status` ran on the reply lines. -/
  | shortStatusUpdate (lines : List String)
  /-- `handle_full_status` ran on the reply lines. -/
  | fullStatusUpdate (lines : List String)
  /-- Fire-and-forget acknowledgement consumed; nothing published. -/
  | ack
  /-- The read failed: `disconnect` + `self.fault` ran, then an early
  return; nothing published and the exchange is not retried. -/
  | faulted
  deriving DecidableEq, Repr

/-- The `expected_lines` dict lookup with default 0:
`{"?": 5, "+": 25}.get(cmd, 0)`. -/
def expected_lines (cmd : String) : Nat :=
  if cmd = "?" then 5 else if cmd = "+" then 25 else 0

/-- One exchange of `run_command` for command `cmd` given read result
`rr`, returning the connection outcome and what was published. On
timeout or `IncompleteReadError` it disconnects, calls
`self.fault(code=2, ...)` and returns without retrying; otherwise it
drops the final `">"` line (`data.split("\n")[:-1]`), strips each line,
and rejects (soft, connection kept) a reply whose line count differs
from `expected_lines cmd`. -/
def run_command (connected : Bool) (cmd : String) (rr : ReadResult) :
    ConnState × RunOutcome :=
  if !connected then (⟨false, none⟩, RunOutcome.notConnectedErr)
  else
    match rr with
    | ReadResult.timeout => (⟨false, some 2⟩, RunOutcome.faulted)
    | ReadResult.eof => (⟨false, some 2⟩, RunOutcome.faulted)
    | ReadResult.ok data =>
      let lines := data.dropLast.map (fun s => s.trim)
      if lines.length ≠ expected_lines cmd then
        (⟨true, none⟩, RunOutcome.lineCountMismatch)
      else if cmd = "?" then (⟨true, none⟩, RunOutcome.shortStatusUpdate lines)
      else if cmd = "+" then (⟨true, none⟩, RunOutcome.fullStatusUpdate lines)
      else (⟨true, none⟩, RunOutcome.ack)

/-! ## Bitwise helper lemmas -/

lemma land_eq_zero_iff (m x : Nat) :
    m &&& x = 0 ↔ ∀ i, ¬(m.testBit i = true ∧ x.testBit i = true) := by
  constructor
  · intro h i hi
    have ht := congrArg (fun n => n.testBit i) h
    simp only [Nat.testBit_land, Nat.zero_testBit] at ht
    rw [hi.1, hi.2] at ht
    simp at ht
  · intro h
    apply Nat.eq_of_testBit_eq
    intro i
    simp only [Nat.testBit_land, Nat.zero_testBit]
    rcases Bool.eq_false_or_eq_true (m.testBit i) with hm | hm
    · rcases Bool.eq_false_or_eq_true (x.testBit i) with hx | hx
      · exact absurd ⟨hm, hx⟩ (h i)
      · simp [hx]
    · simp [hm]

lemma land_lor_eq_zero (m a b : Nat) :
    m &&& (a ||| b) = 0 ↔ m &&& a = 0 ∧ m &&& b = 0 := by
  simp only [land_eq_zero_iff, Nat.testBit_or]
  constructor
  · intro h
    constructor
    · intro i ⟨hm, ha⟩
      exact h i ⟨hm, by simp [ha]⟩
    · intro i ⟨hm, hb⟩
      exact h i ⟨hm, by simp [hb]⟩
  · intro ⟨h1, h2⟩ i ⟨hm, hab⟩
    rcases Bool.or_eq_true_iff.mp hab with ha | hb
    · exact h1 i ⟨hm, ha⟩
    · exact h2 i ⟨hm, hb⟩

lemma land_two_pow_eq_zero (m k : Nat) :
    m &&& 2 ^ k = 0 ↔ m.testBit k = false := by
  rw [Nat.and_two_pow]
  cases h : m.testBit k
  · simp
  · simp [h, (Nat.two_pow_pos k).ne']

lemma land_two_pow_ne_zero (m k : Nat) :
    m &&& 2 ^ k ≠ 0 ↔ m.testBit k = true := by
  rw [ne_eq, land_two_pow_eq_zero]
  cases h : m.testBit k <;> simp [h]

/-! ## Theorems -/

/-- `azimuthState` spelled out as the spec words it (§4.3): `AzPositive`
flag set gives `MovingCW`; else `AzNegative` set gives `MovingCCW`;
else `NotInMotion`. -/
def azimuthState_spec (azPositiveFlag azNegativeFlag : Bool) : AzimuthState :=
  if azPositiveFlag then AzimuthState.MovingCW
  else if azNegativeFlag then AzimuthState.MovingCCW
  else AzimuthState.NotInMotion

/-- C8: for every move code, the derived azimuth state is `MovingCW` when
the `AzPositive` flag (bit 0) is set, else `MovingCCW` when the
`AzNegative` flag (bit 1) is set, else `NotInMotion`; the
AzPositive-to-clockwise mapping is exactly the spec's. -/
theorem moveCode_azState_matches_spec (mc : Nat) :
    compute_az_state mc = azimuthState_spec (mc.testBit 0) (mc.testBit 1) := by
  have h0 := land_two_pow_ne_zero mc 0
  have h1 := land_two_pow_ne_zero mc 1
  norm_num at h0 h1
  unfold compute_az_state azimuthState_spec AzPositive AzNegative
  cases hp : mc.testBit 0 <;> cases hn : mc.testBit 1 <;>
    simp_all [h0, h1]

/-- The bit index of the closing flag for the given door:
`MainDoorClosing = 4 = 2^2`, `DropoutDoorClosing = 16 = 2^4`. -/
def closingBit (is_main : Bool) : Nat := if is_main then 2 else 4

/-- The bit index of the opening flag for the given door:
`MainDoorOpening = 8 = 2^3`, `DropoutDoorOpening = 32 = 2^5`. -/
def openingBit (is_main : Bool) : Nat := if is_main then 3 else 5

/-- `doorState` spelled out as the spec words it (§4.3): with neither
flag set, the percentage decides Closed/Opened/PartiallyOpened; else the
closing flag gives `Closing`; else the opening flag gives `Opening`. -/
def doorState_spec (openPct : ℚ) (closingFlag openingFlag : Bool) :
    ShutterDoorState :=
  if closingFlag = false ∧ openingFlag = false then
    if openPct = 0 then ShutterDoorState.Closed
    else if openPct = 100 then ShutterDoorState.Opened
    else ShutterDoorState.PartiallyOpened
  else if closingFlag then ShutterDoorState.Closing
  else ShutterDoorState.Opening

/-- Normal form of `compute_door_state`: it never reaches the
`RuntimeError` branch, and the result depends only on the door's two
move-code bits and the percentage, with the closing flag decided first. -/
lemma compute_door_state_eq (openPct : ℚ) (is_main : Bool) (mc : Nat) :
    compute_door_state openPct is_main mc =
      some (if mc.testBit (closingBit is_main) then ShutterDoorState.Closing
            else if mc.testBit (openingBit is_main) then ShutterDoorState.Opening
            else if openPct = 0 then ShutterDoorState.Closed
            else if openPct = 100 then ShutterDoorState.Opened
            else ShutterDoorState.PartiallyOpened) := by
  have h2 := land_two_pow_eq_zero mc 2
  have h3 := land_two_pow_eq_zero mc 3
  have h4 := land_two_pow_eq_zero mc 4
  have h5 := land_two_pow_eq_zero mc 5
  norm_num at h2 h3 h4 h5
  cases is_main
  · have hm := land_lor_eq_zero mc 16 32
    cases hc : mc.testBit 4 <;> cases ho : mc.testBit 5 <;>
      simp_all [compute_door_state, closingBit, openingBit,
        DropoutDoorClosing, DropoutDoorOpening];
      (split_ifs <;> rfl)
  · have hm := land_lor_eq_zero mc 4 8
    cases hc : mc.testBit 2 <;> cases ho : mc.testBit 3 <;>
      simp_all [compute_door_state, closingBit, openingBit,
        MainDoorClosing, MainDoorOpening];
      (split_ifs <;> rfl)

/-- C2: for every percentage and move code in which the door's closing
and opening flags are not both set, `compute_door_state` produces
exactly the spec's `doorState` result, and in particular never reaches
the `RuntimeError` (`InvalidMoveCode`) branch. -/
theorem doorState_matches_spec (openPct : ℚ) (is_main : Bool) (mc : Nat)
    (h : ¬(mc.testBit (closingBit is_main) = true ∧
           mc.testBit (openingBit is_main) = true)) :
    compute_door_state openPct is_main mc =
      some (doorState_spec openPct (mc.testBit (closingBit is_main))
              (mc.testBit (openingBit is_main))) := by
  rw [compute_door_state_eq]
  cases hc : mc.testBit (closingBit is_main) <;>
    cases ho : mc.testBit (openingBit is_main) <;>
    simp_all [doorState_spec]

/-- Witness for C2: main door, 55 percent open, move code 4
(main-door closing flag set, opening flag clear) yields `Closing`. -/
theorem doorState_matches_spec_witness :
    compute_door_state 55 true 4 = some ShutterDoorState.Closing := by
  have h := doorState_matches_spec 55 true 4 (by decide)
  rw [h]
  norm_num [doorState_spec, closingBit, openingBit,
    show Nat.testBit 4 2 = true from by decide,
    show Nat.testBit 4 3 = false from by decide]

/-- C9: `compute_door_state` is total over all integer move codes,
including those with both of a door's flags set, and when both are set
the closing flag takes precedence, yielding `Closing`. -/
theorem doorState_total_closing_precedence (openPct : ℚ) (is_main : Bool)
    (mc : Nat) :
    (compute_door_state openPct is_main mc).isSome = true ∧
    (mc.testBit (closingBit is_main) = true →
      mc.testBit (openingBit is_main) = true →
      compute_door_state openPct is_main mc = some ShutterDoorState.Closing) := by
  rw [compute_door_state_eq]
  constructor
  · simp
  · intro hc ho
    simp [hc]

/-- Witness for C9: dropout door, 55 percent open, move code 48 (both
dropout flags set) yields `Closing`, not the error branch. -/
theorem doorState_total_closing_precedence_witness :
    (compute_door_state 55 false 48).isSome = true ∧
    compute_door_state 55 false 48 = some ShutterDoorState.Closing := by
  have h := doorState_total_closing_precedence 55 false 48
  exact ⟨h.1, h.2 (by decide) (by decide)⟩

/-- C1: with the CSC enabled and the azimuth axis not homing,
`do_moveAzimuth a` for `0 ≤ a ≤ 360` succeeds, sends the wire command
`"<a:.3f> MV"` and sets the azimuth commanded state to
`GoToPosition(a)`; for `a < 0` or `a > 360` it fails with
`RejectedError` and issues no wire command (the error trace is empty). -/
theorem moveAzimuth_range_check (a : ℚ) :
    (0 ≤ a → a ≤ 360 →
      do_moveAzimuth true false a = Except.ok
        [Event.send (WireCommand.mv a),
         Event.setAzCmd AzimuthCommandedState.GoToPosition (AzField.val a)]) ∧
    (a < 0 ∨ a > 360 →
      do_moveAzimuth true false a = Except.error CmdError.rejected) := by
  constructor
  · intro h0 h1
    have : ¬(a < 0 ∨ a > 360) := by
      push_neg
      exact ⟨h0, h1⟩
    simp [do_moveAzimuth, this]
  · intro h
    simp [do_moveAzimuth, h]

/-- Witness for C1: azimuth 90 is accepted with the `MV` send and the
`GoToPosition` update; azimuth 400 is rejected. -/
theorem moveAzimuth_range_check_witness :
    do_moveAzimuth true false 90 = Except.ok
      [Event.send (WireCommand.mv 90),
       Event.setAzCmd AzimuthCommandedState.GoToPosition (AzField.val 90)] ∧
    do_moveAzimuth true false 400 = Except.error CmdError.rejected :=
  ⟨(moveAzimuth_range_check 90).1 (by norm_num) (by norm_num),
   (moveAzimuth_range_check 400).2 (Or.inr (by norm_num))⟩

/-- C6: `do_moveShutterDropoutDoor` rejects (for either direction)
whenever the main door's derived state is not `Opened`, and
`do_moveShutterMainDoor` with `open=false` rejects unless the dropout
door's derived state is `Closed` or `Opened`; a rejected call produces
the error alone — no commanded-state update and no wire send. -/
theorem door_preconditions_enforced (mainSt dropSt : ShutterDoorState)
    (openArg : Bool) :
    (mainSt ≠ ShutterDoorState.Opened →
      do_moveShutterDropoutDoor true mainSt openArg
        = Except.error CmdError.rejected) ∧
    (dropSt ≠ ShutterDoorState.Closed → dropSt ≠ ShutterDoorState.Opened →
      do_moveShutterMainDoor true dropSt false
        = Except.error CmdError.rejected) := by
  constructor
  · intro h
    simp [do_moveShutterDropoutDoor, h]
  · intro h1 h2
    simp [do_moveShutterMainDoor, h1, h2]

/-- Witness for C6: with the main door only partially open the dropout
move is rejected, and with the dropout door partially open closing the
main door is rejected. -/
theorem door_preconditions_enforced_witness :
    do_moveShutterDropoutDoor true ShutterDoorState.PartiallyOpened true
      = Except.error CmdError.rejected ∧
    do_moveShutterMainDoor true ShutterDoorState.PartiallyOpened false
      = Except.error CmdError.rejected :=
  ⟨(door_preconditions_enforced ShutterDoorState.PartiallyOpened
      ShutterDoorState.PartiallyOpened true).1 (by decide),
   (door_preconditions_enforced ShutterDoorState.PartiallyOpened
      ShutterDoorState.PartiallyOpened true).2 (by decide) (by decide)⟩

/-- C4: a read timeout or unexpected stream termination during the
exchange is connection-fatal: `run_command` disconnects (connected goes
false), reports fault code 2, and returns without retrying — for every
command being exchanged. -/
theorem read_failure_is_connection_fatal (cmd : String) :
    run_command true cmd ReadResult.timeout
      = (⟨false, some 2⟩, RunOutcome.faulted) ∧
    run_command true cmd ReadResult.eof
      = (⟨false, some 2⟩, RunOutcome.faulted) := by
  constructor <;> rfl

/-- C5: the command-to-expected-line-count mapping is fixed
(`"?"` expects 5, `"+"` expects 25, everything else 0), and a reply
whose line count differs from the expected count is a soft failure:
no status update is published and the connection stays up. -/
theorem expected_line_counts_and_soft_mismatch :
    expected_lines "?" = 5 ∧ expected_lines "+" = 25 ∧
    (∀ cmd : String, cmd ≠ "?" → cmd ≠ "+" → expected_lines cmd = 0) ∧
    (∀ (cmd : String) (data : List String),
      (data.dropLast.map (fun s => s.trim)).length ≠ expected_lines cmd →
      run_command true cmd (ReadResult.ok data)
        = (⟨true, none⟩, RunOutcome.lineCountMismatch)) := by
  refine ⟨rfl, rfl, ?_, ?_⟩
  · intro cmd h1 h2
    simp [expected_lines, h1, h2]
  · intro cmd data h
    simp only [List.length_map, List.length_dropLast] at h
    simp [run_command, h]

/-- Witness for C5: an unknown command has expected count 0, and a
short-status reply with 4 lines instead of 5 is dropped softly with the
connection still up. -/
theorem expected_line_counts_and_soft_mismatch_witness :
    expected_lines "ST" = 0 ∧
    run_command true "?" (ReadResult.ok ["a", "b", "c", "d", ">"])
      = (⟨true, none⟩, RunOutcome.lineCountMismatch) :=
  ⟨(expected_line_counts_and_soft_mismatch).2.2.1 "ST"
      (by decide) (by decide),
   (expected_line_counts_and_soft_mismatch).2.2.2 "?"
      ["a", "b", "c", "d", ">"] (by decide)⟩

/-- Counterexample to C7: `do_moveAzimuth` performs its wire send
*before* its commanded-state update — its successful trace at azimuth 90
starts with the send, so the claimed order (validate, update commanded
state, then send) is violated. -/
theorem command_effect_order_counterexample :
    do_moveAzimuth true false 90 = Except.ok
      [Event.send (WireCommand.mv 90),
       Event.setAzCmd AzimuthCommandedState.GoToPosition (AzField.val 90)] ∧
    updatesBeforeSends
      [Event.send (WireCommand.mv 90),
       Event.setAzCmd AzimuthCommandedState.GoToPosition (AzField.val 90)]
      = false := by
  constructor
  · have : ¬((90:ℚ) < 0 ∨ (90:ℚ) > 360) := by norm_num
    simp [do_moveAzimuth, this]
  · rfl

/-- C7 amended: every command operation validates its preconditions
before any effect; `stopMotion`, `homeAzimuth` and the two single-door
commands update the `AxisCommandedState` before sending the wire
command, but `moveAzimuth`, `openShutter` and `closeShutter` send the
wire command first and update the commanded state only afterwards. -/
theorem command_effect_order_amended (a : ℚ)
    (mainSt dropSt : ShutterDoorState) (b : Bool) :
    (0 ≤ a → a ≤ 360 →
      Except.map sendFirst (do_moveAzimuth true false a) = Except.ok true) ∧
    Except.map sendFirst (do_closeShutter true) = Except.ok true ∧
    Except.map sendFirst (do_openShutter true) = Except.ok true ∧
    Except.map updatesBeforeSends (do_stopMotion true) = Except.ok true ∧
    Except.map updatesBeforeSends (do_homeAzimuth true false) = Except.ok true ∧
    (mainSt = ShutterDoorState.Opened →
      Except.map updatesBeforeSends (do_moveShutterDropoutDoor true mainSt b)
        = Except.ok true) ∧
    Except.map updatesBeforeSends (do_moveShutterMainDoor true dropSt true)
      = Except.ok true ∧
    (dropSt = ShutterDoorState.Closed ∨ dropSt = ShutterDoorState.Opened →
      Except.map updatesBeforeSends (do_moveShutterMainDoor true dropSt false)
        = Except.ok true) := by
  refine ⟨?_, rfl, rfl, rfl, rfl, ?_, rfl, ?_⟩
  · intro h0 h1
    have : ¬(a < 0 ∨ a > 360) := by
      push_neg
      exact ⟨h0, h1⟩
    simp [do_moveAzimuth, this]
    rfl
  · intro h
    subst h
    cases b <;> rfl
  · intro h
    rcases h with h | h <;> subst h <;> rfl

/-- Witness for the amended C7 at azimuth 90, main door `Opened`,
dropout door `Closed`, door direction `open`. -/
theorem command_effect_order_amended_witness :
    Except.map sendFirst (do_moveAzimuth true false 90) = Except.ok true ∧
    Except.map updatesBeforeSends
        (do_moveShutterDropoutDoor true ShutterDoorState.Opened true)
      = Except.ok true ∧
    Except.map updatesBeforeSends
        (do_moveShutterMainDoor true ShutterDoorState.Closed false)
      = Except.ok true :=
  ⟨(command_effect_order_amended 90 ShutterDoorState.Opened
      ShutterDoorState.Closed true).1 (by norm_num) (by norm_num),
   (command_effect_order_amended 90 ShutterDoorState.Opened
      ShutterDoorState.Closed true).2.2.2.2.2.1 rfl,
   (command_effect_order_amended 90 ShutterDoorState.Opened
      ShutterDoorState.Closed true).2.2.2.2.2.2.2 (Or.inl rfl)⟩


/-- The spec's azimuth in-position condition (§3): az axis halted
(neither az move-code flag set), commanded intent `GoToPosition`, and
the shortest-path wrapped angular difference below the tolerance. -/
def AzInPos (cs : CommandedData) (pos : PositionData) (mc : Nat) : Prop :=
  mc &&& (AzPositive ||| AzNegative) = 0 ∧
  cs.azCmd = AzimuthCommandedState.GoToPosition ∧
  |angle_diff pos.azimuthPosition cs.azCmdAzimuth| < az_tolerance

/-- The spec's dropout-door in-position condition (§3): door halted and
the opening percentage exactly at the commanded extreme. -/
def DropInPos (cs : CommandedData) (pos : PositionData) (mc : Nat) : Prop :=
  mc &&& (DropoutDoorClosing ||| DropoutDoorOpening) = 0 ∧
  ((cs.dropoutCmd = ShutterDoorCommandedState.Opened ∧
      pos.dropoutDoorOpeningPercentage = 100) ∨
   (cs.dropoutCmd = ShutterDoorCommandedState.Closed ∧
      pos.dropoutDoorOpeningPercentage = 0))

/-- The spec's main-door in-position condition (§3). -/
def MainInPos (cs : CommandedData) (pos : PositionData) (mc : Nat) : Prop :=
  mc &&& (MainDoorClosing ||| MainDoorOpening) = 0 ∧
  ((cs.mainCmd = ShutterDoorCommandedState.Opened ∧
      pos.mainDoorOpeningPercentage = 100) ∨
   (cs.mainCmd = ShutterDoorCommandedState.Closed ∧
      pos.mainDoorOpeningPercentage = 0))

instance (cs : CommandedData) (pos : PositionData) (mc : Nat) :
    Decidable (AzInPos cs pos mc) := by
  unfold AzInPos
  infer_instance

instance (cs : CommandedData) (pos : PositionData) (mc : Nat) :
    Decidable (DropInPos cs pos mc) := by
  unfold DropInPos
  infer_instance

instance (cs : CommandedData) (pos : PositionData) (mc : Nat) :
    Decidable (MainInPos cs pos mc) := by
  unfold MainInPos
  infer_instance

lemma az_step (cs : CommandedData) (pos : PositionData) (mc : Nat)
    (m : Nat) :
    (if mc &&& (AzPositive ||| AzNegative) = 0 ∧
        cs.azCmd = AzimuthCommandedState.GoToPosition then
       if |angle_diff pos.azimuthPosition cs.azCmdAzimuth| < az_tolerance then
         m ||| AxisAz
       else m
     else m)
    = if AzInPos cs pos mc then m ||| AxisAz else m := by
  by_cases h1 : mc &&& (AzPositive ||| AzNegative) = 0 <;>
    by_cases h2 : cs.azCmd = AzimuthCommandedState.GoToPosition <;>
    by_cases h3 : |angle_diff pos.azimuthPosition cs.azCmdAzimuth| < az_tolerance <;>
    simp_all [AzInPos]

lemma door_step (halted : Prop) [Decidable halted]
    (cmd : ShutterDoorCommandedState) (pct : ℚ) (m b : Nat) :
    (if halted then
       if cmd = ShutterDoorCommandedState.Opened then
         (if pct = 100 then m ||| b else m)
       else if cmd = ShutterDoorCommandedState.Closed then
         (if pct = 0 then m ||| b else m)
       else m
     else m)
    = if halted ∧ ((cmd = ShutterDoorCommandedState.Opened ∧ pct = 100) ∨
                   (cmd = ShutterDoorCommandedState.Closed ∧ pct = 0)) then
        m ||| b
      else m := by
  by_cases hh : halted
  · cases cmd <;>
      by_cases h100 : pct = 100 <;> by_cases h0 : pct = 0 <;>
      simp_all
  · simp [hh]

/-- Normal form of `compute_in_position_mask`: one bit per axis, set
exactly when that axis's in-position condition holds. -/
lemma compute_in_position_mask_eq (cs : CommandedData) (pos : PositionData)
    (mc : Nat) :
    compute_in_position_mask cs pos mc =
      (if AzInPos cs pos mc then AxisAz else 0) +
      (if DropInPos cs pos mc then AxisDropoutDoor else 0) +
      (if MainInPos cs pos mc then AxisMainDoor else 0) := by
  show (let mask : Nat := 0
        let az_halted := mc &&& (AzPositive ||| AzNegative) = 0
        let mask :=
          if az_halted ∧ cs.azCmd = AzimuthCommandedState.GoToPosition then
            if |angle_diff pos.azimuthPosition cs.azCmdAzimuth| < az_tolerance then
              mask ||| AxisAz
            else mask
          else mask
        let dropout_halted := mc &&& (DropoutDoorClosing ||| DropoutDoorOpening) = 0
        let mask :=
          if dropout_halted then
            if cs.dropoutCmd = ShutterDoorCommandedState.Opened then
              if pos.dropoutDoorOpeningPercentage = 100 then mask ||| AxisDropoutDoor else mask
            else if cs.dropoutCmd = ShutterDoorCommandedState.Closed then
              if pos.dropoutDoorOpeningPercentage = 0 then mask ||| AxisDropoutDoor else mask
            else mask
          else mask
        let mask :=
          if dropout_halted then
            if cs.dropoutCmd = ShutterDoorCommandedState.Opened then
              if pos.dropoutDoorOpeningPercentage = 100 then mask ||| AxisDropoutDoor else mask
            else if cs.dropoutCmd = ShutterDoorCommandedState.Closed then
              if pos.dropoutDoorOpeningPercentage = 0 then mask ||| AxisDropoutDoor else mask
            else mask
          else mask
        let main_halted := mc &&& (MainDoorClosing ||| MainDoorOpening) = 0
        let mask :=
          if main_halted then
            if cs.mainCmd = ShutterDoorCommandedState.Opened then
              if pos.mainDoorOpeningPercentage = 100 then mask ||| AxisMainDoor else mask
            else if cs.mainCmd = ShutterDoorCommandedState.Closed then
              if pos.mainDoorOpeningPercentage = 0 then mask ||| AxisMainDoor else mask
            else mask
          else mask
        mask) = _
  simp only []
  rw [az_step, door_step, door_step, door_step]
  by_cases hA : AzInPos cs pos mc <;>
    by_cases hD : DropInPos cs pos mc <;>
    by_cases hM : MainInPos cs pos mc <;>
    simp only [DropInPos, MainInPos] at hD hM <;>
    simp [hA, hD, hM, DropInPos, MainInPos] <;>
    decide

/-- The dropout-door bit of the in-position mask, as tested inside
`in_position(Axis.DropoutDoor | Axis.MainDoor)`. -/
def dropoutInPosition (cs : CommandedData) (pos : PositionData)
    (move_code : Nat) : Bool :=
  compute_in_position_mask cs pos move_code &&& AxisDropoutDoor = AxisDropoutDoor

/-- The main-door bit of the in-position mask. -/
def mainInPosition (cs : CommandedData) (pos : PositionData)
    (move_code : Nat) : Bool :=
  compute_in_position_mask cs pos move_code &&& AxisMainDoor = AxisMainDoor

lemma azimuthInPosition_iff (cs : CommandedData) (pos : PositionData)
    (mc : Nat) :
    azimuthInPosition cs pos mc = true ↔ AzInPos cs pos mc := by
  simp only [azimuthInPosition, decide_eq_true_eq, compute_in_position_mask_eq]
  by_cases hA : AzInPos cs pos mc <;>
    by_cases hD : DropInPos cs pos mc <;>
    by_cases hM : MainInPos cs pos mc <;>
    simp [hA, hD, hM] <;> decide

lemma dropoutInPosition_iff (cs : CommandedData) (pos : PositionData)
    (mc : Nat) :
    dropoutInPosition cs pos mc = true ↔ DropInPos cs pos mc := by
  simp only [dropoutInPosition, decide_eq_true_eq, compute_in_position_mask_eq]
  by_cases hA : AzInPos cs pos mc <;>
    by_cases hD : DropInPos cs pos mc <;>
    by_cases hM : MainInPos cs pos mc <;>
    simp [hA, hD, hM] <;> decide

lemma mainInPosition_iff (cs : CommandedData) (pos : PositionData)
    (mc : Nat) :
    mainInPosition cs pos mc = true ↔ MainInPos cs pos mc := by
  simp only [mainInPosition, decide_eq_true_eq, compute_in_position_mask_eq]
  by_cases hA : AzInPos cs pos mc <;>
    by_cases hD : DropInPos cs pos mc <;>
    by_cases hM : MainInPos cs pos mc <;>
    simp [hA, hD, hM] <;> decide

lemma shutterInPosition_eq_and (cs : CommandedData) (pos : PositionData)
    (mc : Nat) :
    shutterInPosition cs pos mc
      = (dropoutInPosition cs pos mc && mainInPosition cs pos mc) := by
  simp only [shutterInPosition, dropoutInPosition, mainInPosition,
    compute_in_position_mask_eq]
  by_cases hA : AzInPos cs pos mc <;>
    by_cases hD : DropInPos cs pos mc <;>
    by_cases hM : MainInPos cs pos mc <;>
    simp [hA, hD, hM] <;> decide

/-- C3: the derived in-position flags of `handle_short_status` are
exactly the spec's: azimuth in position iff az halted, commanded
`GoToPosition` and wrapped angular difference below the tolerance; each
door in position iff halted with percentage at the commanded extreme
(100 for `Opened`, 0 for `Closed`); `shutterInPosition` is the AND of
the two door bits and `allAxesInPosition` the AND of azimuth and
shutter. -/
theorem in_position_flags_match_spec (cs : CommandedData)
    (pos : PositionData) (mc : Nat) :
    (azimuthInPosition cs pos mc = true ↔ AzInPos cs pos mc) ∧
    (dropoutInPosition cs pos mc = true ↔ DropInPos cs pos mc) ∧
    (mainInPosition cs pos mc = true ↔ MainInPos cs pos mc) ∧
    shutterInPosition cs pos mc
      = (dropoutInPosition cs pos mc && mainInPosition cs pos mc) ∧
    allAxesInPosition cs pos mc
      = (azimuthInPosition cs pos mc && shutterInPosition cs pos mc) :=
  ⟨azimuthInPosition_iff cs pos mc, dropoutInPosition_iff cs pos mc,
   mainInPosition_iff cs pos mc, shutterInPosition_eq_and cs pos mc, rfl⟩

/-- C10: a door whose commanded state is neither `Opened` nor `Closed`
(`Unknown` or `Stop`) never contributes its bit to the in-position mask,
so `shutterInPosition` is false — whatever the move code and the door
percentages. -/
theorem shutter_not_in_position_without_extreme_command
    (cs : CommandedData) (pos : PositionData) (mc : Nat) :
    (cs.dropoutCmd ≠ ShutterDoorCommandedState.Opened →
     cs.dropoutCmd ≠ ShutterDoorCommandedState.Closed →
      compute_in_position_mask cs pos mc &&& AxisDropoutDoor = 0 ∧
      shutterInPosition cs pos mc = false) ∧
    (cs.mainCmd ≠ ShutterDoorCommandedState.Opened →
     cs.mainCmd ≠ ShutterDoorCommandedState.Closed →
      compute_in_position_mask cs pos mc &&& AxisMainDoor = 0 ∧
      shutterInPosition cs pos mc = false) := by
  constructor
  · intro h1 h2
    have hD : ¬ DropInPos cs pos mc := by
      simp [DropInPos, h1, h2]
    constructor
    · rw [compute_in_position_mask_eq]
      by_cases hA : AzInPos cs pos mc <;>
        by_cases hM : MainInPos cs pos mc <;>
        simp [hA, hM, hD] <;> decide
    · simp only [shutterInPosition, decide_eq_true_eq,
        compute_in_position_mask_eq]
      by_cases hA : AzInPos cs pos mc <;>
        by_cases hM : MainInPos cs pos mc <;>
        simp [hA, hM, hD] <;> decide
  · intro h1 h2
    have hM : ¬ MainInPos cs pos mc := by
      simp [MainInPos, h1, h2]
    constructor
    · rw [compute_in_position_mask_eq]
      by_cases hA : AzInPos cs pos mc <;>
        by_cases hD : DropInPos cs pos mc <;>
        simp [hA, hD, hM] <;> decide
    · simp only [shutterInPosition, decide_eq_true_eq,
        compute_in_position_mask_eq]
      by_cases hA : AzInPos cs pos mc <;>
        by_cases hD : DropInPos cs pos mc <;>
        simp [hA, hD, hM] <;> decide

/-- Witness for C10: the startup state — both commanded door states
`Unknown` (as published by `start`), both doors halted at 0 percent,
move code 0 — reports the shutter not in position. -/
theorem shutter_not_in_position_without_extreme_command_witness :
    shutterInPosition
      ⟨AzimuthCommandedState.Unknown, 0,
       ShutterDoorCommandedState.Unknown, ShutterDoorCommandedState.Unknown⟩
      ⟨0, 0, 0⟩ 0 = false :=
  ((shutter_not_in_position_without_extreme_command
      ⟨AzimuthCommandedState.Unknown, 0,
       ShutterDoorCommandedState.Unknown, ShutterDoorCommandedState.Unknown⟩
      ⟨0, 0, 0⟩ 0).1 (by decide) (by decide)).2
